import Mathlib

/-!
Shallow embedding of the client-side state-management core of a Nuxt +
PocketBase front-end: a theme store, a user-profile store and an
authentication controller, together with the normalization function
`mapAuthDataToUser` that maps raw remote authentication results into the
local profile shape.

Remote calls are modelled by passing their outcome (`Except` of the remote
error message) as an explicit argument; JavaScript exceptions are modelled
by an `Except JsErr` result, where `JsErr` distinguishes an uncaught
runtime fault (a `TypeError`) from a normalized `Error` thrown by a
`catch` clause.  Reactive refs and `localStorage` become explicit state
records.  `JSON.stringify` on the profile shape is modelled character by
character (object-literal key order, string escaping, and the fact that a
DOM `File` value has no own enumerable properties and therefore serializes
as an empty object).
-/

/-- Raw PocketBase user record, as carried inside an authentication
response (`authData.record`).  All fields the core reads are strings;
`created` holds an ISO timestamp such as `"2024-03-05T00:00:00Z"`. -/
structure UserRecord where
  id : String
  name : String
  email : String
  avatar : String
  created : String
  themeMode : String
deriving Repr, DecidableEq

/-- Raw authentication result from PocketBase: a session token plus the
user record (`{ token, record }`). -/
structure AuthData where
  token : String
  record : UserRecord
deriving Repr, DecidableEq

/-- The application's `UserType` profile shape, in the exact field order
in which `mapAuthDataToUser` constructs the object literal (this order is
the `JSON.stringify` property order).  The pending avatar upload
(`avatarFile : File | null`) is modelled as an `Option String` carrying
the file's identity (e.g. its name): `none` is JavaScript `null`. -/
structure UserType where
  id : String
  token : String
  name : String
  email : String
  avatar : String
  created : String
  themeMode : String
  password : String
  passwordConfirm : String
  oldPassword : String
  avatarFile : Option String
deriving Repr, DecidableEq

/-- JavaScript exception values thrown by the modelled code: an uncaught
runtime fault such as a `TypeError` (a null dereference), or a normalized
`Error` constructed by a `catch` clause via `new Error(message)`. -/
inductive JsErr where
  | typeError (msg : String)
  | error (msg : String)
deriving Repr, DecidableEq

/-- Message of the `TypeError` raised by dereferencing `.id` on a null
value (V8 wording); only its being non-empty matters below. -/
def nullDerefMessage : String := "Cannot read properties of null (reading 'id')"

/-- Normalization performed by every `catch` clause of the stores:
`throw new Error(error?.message || fallback)` — the caught error's message
when it is a non-empty string, the operation's fallback text otherwise. -/
def normalizeCaught (fallback msg : String) : JsErr :=
  JsErr.error (if msg = "" then fallback else msg)

/-- Fallback message of `updateUser`'s catch clause. -/
def updateUserFallback : String := "Failed to update user data. Please try again."

/-- Fallback message of `login`'s catch clause. -/
def loginFallback : String := "Login failed. Please check your credentials."

/-! ### Theme store (`useThemeStore`) -/

/-- State owned by the theme store: the reactive `activeTheme` ref and the
`theme` key of `localStorage` (`none` when the key is absent). -/
structure ThemeStoreState where
  activeTheme : String
  themeStorage : Option String
deriving Repr, DecidableEq

/-- The theme store's `changeTheme`: flips `activeTheme.value` between
`'forest'` and `'winter'` (`activeTheme.value === 'forest' ? 'winter' :
'forest'`).  It touches nothing else — in particular it performs no
`localStorage` write. -/
def changeTheme (s : ThemeStoreState) : ThemeStoreState :=
  { s with activeTheme := if s.activeTheme = "forest" then "winter" else "forest" }

/-- The theme store's `setTheme`: when a user profile is held, take its
`themeMode`; otherwise `localStorage.getItem('theme') || 'forest'`
(`getItem` yields `null` when the key is absent, and both `null` and the
empty string are falsy); then always
`localStorage.setItem('theme', activeTheme.value)`. -/
def setTheme (userData : Option UserType) (s : ThemeStoreState) : ThemeStoreState :=
  let t :=
    match userData with
    | some u => u.themeMode
    | none =>
      match s.themeStorage with
      | none => "forest"
      | some v => if v = "" then "forest" else v
  { activeTheme := t, themeStorage := some t }

/-! ### Normalization (`mapAuthDataToUser`)

`new Date(record.created)` followed by `getDate` / `getMonth` /
`getFullYear` is modelled by reading the day, month and year directly out
of the ISO timestamp (the environment is taken to be at UTC, so the
record's own calendar date is returned; `getMonth` is zero-based and the
source adds one back, which cancels out here). -/

/-- Numeric value of a decimal digit character. -/
def digitVal (c : Char) : Nat := c.toNat - 48

/-- Number denoted by a run of decimal digit characters. -/
def natOfDigits (l : List Char) : Nat := l.foldl (fun a c => 10 * a + digitVal c) 0

/-- Day of month of an ISO timestamp `YYYY-MM-DD...`. -/
def isoDay (s : String) : Nat := natOfDigits ((s.data.drop 8).take 2)

/-- Month (one-based) of an ISO timestamp `YYYY-MM-DD...`. -/
def isoMonth (s : String) : Nat := natOfDigits ((s.data.drop 5).take 2)

/-- Year of an ISO timestamp `YYYY-MM-DD...`. -/
def isoYear (s : String) : Nat := natOfDigits (s.data.take 4)

/-- `String(n).padStart(2, '0')`. -/
def pad2 (n : Nat) : String := if n < 10 then "0" ++ toString n else toString n

/-- The `created` formatting of `mapAuthDataToUser`: zero-padded
`DD-MM-YYYY` built from the record's own creation timestamp. -/
def formatCreated (created : String) : String :=
  pad2 (isoDay created) ++ "-" ++ pad2 (isoMonth created) ++ "-" ++ toString (isoYear created)

/-- The authentication controller's `mapAuthDataToUser`.  `getURL` stands
for `pocketBaseStore.pb.files.getURL(record, record.avatar, ...)` (an
external call, passed in as an oracle); `activeTheme` is the theme store's
current `activeTheme`.  The function mutates `record` in place when its
`themeMode` is the empty string, so the result is the produced `UserType`
together with the (possibly mutated) `authData` object the caller still
holds. -/
def mapAuthDataToUser (getURL : UserRecord → String → String) (activeTheme : String)
    (authData : AuthData) : UserType × AuthData :=
  let record := authData.record
  let avatar := if record.avatar = "" then "" else getURL record record.avatar
  let created := formatCreated record.created
  let record :=
    if record.themeMode = "" then { record with themeMode := activeTheme } else record
  let user : UserType :=
    { id := record.id
      token := authData.token
      name := record.name
      email := record.email
      avatar := avatar
      created := created
      themeMode := record.themeMode
      password := ""
      passwordConfirm := ""
      oldPassword := ""
      avatarFile := none }
  (user, { authData with record := record })

/-! ### User-profile store (`useUserStore`) -/

/-- State owned by the user store: the reactive `userData` ref (`null`
until a login). -/
structure UserStoreState where
  userData : Option UserType
deriving Repr, DecidableEq

/-- The user store's `saveUserData`: replaces the held profile wholesale. -/
def saveUserData (_s : UserStoreState) (u : UserType) : UserStoreState :=
  { userData := some u }

/-- The user store's `clearUser`: sets the held profile to `null`. -/
def clearUser (_s : UserStoreState) : UserStoreState :=
  { userData := none }

/-- The user store's `updateUser`.  `newData` is forwarded to the remote
call unmodified, so its type is abstract; `remote` is the outcome of
`pb.collection('users').update(id, newData)` for the held profile's id
(error case carries the remote message).  Evaluation order of the source:
the argument `userData.value!.id` is computed first, *inside* the `try`
block — when no profile is held this dereference of `null` raises a
`TypeError`, which the `catch` clause then rewraps via
`new Error(error?.message || fallback)`.  On remote success the operation
returns `true` and never assigns `userData.value`. -/
def updateUser {α : Type} (s : UserStoreState) (_newData : α)
    (remote : Except String Unit) : Except JsErr Bool × UserStoreState :=
  match s.userData with
  | none => (Except.error (normalizeCaught updateUserFallback nullDerefMessage), s)
  | some _ =>
    match remote with
    | Except.ok _ => (Except.ok true, s)
    | Except.error msg => (Except.error (normalizeCaught updateUserFallback msg), s)

/-- Tests whether a thrown result is an uncaught runtime fault (a
`TypeError`-class error) as opposed to a normalized `Error`. -/
def isFatalFault (r : Except JsErr Bool) : Bool :=
  match r with
  | Except.error (JsErr.typeError _) => true
  | _ => false

/-! ### `JSON.stringify` on the profile shape

`userDataHasEdited` compares `JSON.stringify(data)` with
`JSON.stringify(userData.value)`.  The serialization is modelled character
by character: properties appear in object-literal insertion order, string
values are quoted with `"` / `\` escaped, `null` prints as `null`, and a
DOM `File` value — which has no own enumerable properties and no `toJSON`
method — prints as the empty object `\x7b\x7d`. -/

/-- JSON escaping of one string character (`"` and `\` get a backslash;
other characters are kept as they are). -/
def escChar (c : Char) : List Char :=
  if c = '"' then ['\\', '"']
  else if c = '\\' then ['\\', '\\']
  else [c]

/-- JSON escaping of a character list. -/
def escList : List Char → List Char
  | [] => []
  | c :: cs => escChar c ++ escList cs

/-- A JSON string value: the escaped characters, the closing quote, then
whatever follows in the surrounding document (the opening quote is part of
the preceding literal text). -/
def quoted (s : String) (rest : List Char) : List Char :=
  escList s.data ++ '"' :: rest

/-- Serialization of the `avatarFile` field's value: `null` for `null`,
and the empty object for a `File`. -/
def avatarFileJson : Option String → List Char
  | none => "null".data
  | some _ => "\x7b\x7d".data

/-- Characters of `JSON.stringify` applied to a `UserType` object. -/
def userJsonList (u : UserType) : List Char :=
  "\x7b\"id\":\"".data ++ quoted u.id (
  ",\"token\":\"".data ++ quoted u.token (
  ",\"name\":\"".data ++ quoted u.name (
  ",\"email\":\"".data ++ quoted u.email (
  ",\"avatar\":\"".data ++ quoted u.avatar (
  ",\"created\":\"".data ++ quoted u.created (
  ",\"themeMode\":\"".data ++ quoted u.themeMode (
  ",\"password\":\"".data ++ quoted u.password (
  ",\"passwordConfirm\":\"".data ++ quoted u.passwordConfirm (
  ",\"oldPassword\":\"".data ++ quoted u.oldPassword (
  ",\"avatarFile\":".data ++ (avatarFileJson u.avatarFile ++ "\x7d".data)))))))))))

/-- `JSON.stringify` of a `UserType` object, as a string. -/
def stringifyUser (u : UserType) : String := String.mk (userJsonList u)

/-- `JSON.stringify` of `userData.value`, which may be `null`. -/
def stringifyOpt : Option UserType → String
  | none => "null"
  | some u => stringifyUser u

/-- The user store's `userDataHasEdited`:
`JSON.stringify(data) !== JSON.stringify(userData.value)`. -/
def userDataHasEdited (s : UserStoreState) (data : UserType) : Bool :=
  !(stringifyUser data == stringifyOpt s.userData)

/-- The relation that string equality of the serialized forms actually
captures: agreement on every string-valued field, and agreement on the
*presence* of a pending avatar file (its contents serialize opaquely as
the empty object). -/
def serializedEqUser (u1 u2 : UserType) : Prop :=
  u1.id = u2.id ∧ u1.token = u2.token ∧ u1.name = u2.name ∧ u1.email = u2.email ∧
  u1.avatar = u2.avatar ∧ u1.created = u2.created ∧ u1.themeMode = u2.themeMode ∧
  u1.password = u2.password ∧ u1.passwordConfirm = u2.passwordConfirm ∧
  u1.oldPassword = u2.oldPassword ∧ u1.avatarFile.isNone = u2.avatarFile.isNone

/-! ### Authentication controller (`useMyAuthStore`) -/

/-- State the authentication controller manipulates:
`pb.authStore.isValid` (the remote session marker's validity), whether the
`pocketbase_auth` key is present in `localStorage`, and the user store. -/
structure AuthState where
  authValid : Bool
  pbAuthStored : Bool
  user : UserStoreState
deriving Repr, DecidableEq

/-- The three clearing statements shared by `logout` and both clearing
sites of `authRefresh`: `pb.authStore.clear()`,
`localStorage.removeItem('pocketbase_auth')`, `userStore.clearUser()`. -/
def clearAll (s : AuthState) : AuthState :=
  { authValid := false, pbAuthStored := false, user := clearUser s.user }

/-- The authentication controller's `login`.  `remote` is the outcome of
`authWithPassword(email, password)`.  On success the auth data is
normalized (mutating its record in place), saved into the user store, and
the very same `authData` object is returned to the caller; on failure the
catch clause throws the normalized error. -/
def login (getURL : UserRecord → String → String) (activeTheme : String)
    (store : UserStoreState) (remote : Except String AuthData) :
    Except JsErr (AuthData × UserStoreState) :=
  match remote with
  | Except.error msg => Except.error (normalizeCaught loginFallback msg)
  | Except.ok authData =>
    let r := mapAuthDataToUser getURL activeTheme authData
    Except.ok (r.2, saveUserData store r.1)

/-- Body of `authRefresh`'s `try` block: when the session marker is
invalid, clear everything and return; otherwise perform the remote
`authRefresh()` call (whose failure propagates out of the body) and save
the normalized fresh data. -/
def authRefreshBody (getURL : UserRecord → String → String) (activeTheme : String)
    (s : AuthState) (remote : Except String AuthData) : Except String AuthState :=
  if s.authValid = false then
    Except.ok (clearAll s)
  else
    match remote with
    | Except.error msg => Except.error msg
    | Except.ok authData =>
      Except.ok { s with user := saveUserData s.user (mapAuthDataToUser getURL activeTheme authData).1 }

/-- The authentication controller's `authRefresh`: the `try` body above
wrapped in the `catch` clause that swallows any error and clears all
authentication data.  The operation never throws. -/
def authRefresh (getURL : UserRecord → String → String) (activeTheme : String)
    (s : AuthState) (remote : Except String AuthData) : AuthState :=
  match authRefreshBody getURL activeTheme s remote with
  | Except.ok s' => s'
  | Except.error _ => clearAll s

/-- Decoder for one escaped JSON string value: scans up to the first
unescaped closing quote, returning the unescaped characters and the rest
of the input.  Used to show that escaped string values can be read back
unambiguously out of a serialized document. -/
def scanStr : List Char → Option (List Char × List Char)
  | [] => none
  | c :: rest =>
    if c = '"' then some ([], rest)
    else if c = '\\' then
      match rest with
      | [] => none
      | c2 :: rest2 =>
        match scanStr rest2 with
        | none => none
        | some (s, r) => some (c2 :: s, r)
    else
      match scanStr rest with
      | none => none
      | some (s, r) => some (c :: s, r)

/-! ## Claims -/

/-- C1 (counterexample): calling `updateUser` while no profile is held
does *not* raise a fatal precondition fault.  The null dereference of
`userData.value!.id` happens inside the `try` block, so the resulting
`TypeError` is caught and re-thrown as the normalized `Error` carrying its
message: the observable outcome is a normalized error, not an uncaught
fault. -/
theorem updateUser_no_profile_counterexample :
    (updateUser { userData := none } () (Except.ok ())).1
      = Except.error (JsErr.error nullDerefMessage) ∧
    isFatalFault (updateUser { userData := none } () (Except.ok ())).1 = false := by
  constructor <;> rfl

/-- C1 (amended): for every argument and every remote outcome, calling
`updateUser` with no held profile raises a *normalized* error whose
message is the null-dereference `TypeError`'s message — the dereference of
the absent profile occurs inside the `try` block and is caught and
re-raised by the same normalization as remote failures — and leaves the
store unchanged. -/
theorem updateUser_no_profile_normalized_error {α : Type} (newData : α)
    (remote : Except String Unit) :
    updateUser { userData := none } newData remote
      = (Except.error (JsErr.error nullDerefMessage), { userData := none }) := by
  rfl

/-- C2 (counterexample): `changeTheme` flips the active theme (here from
`"forest"` to `"winter"`) but performs no write to durable local storage:
the `theme` key, absent before the call, is still absent afterwards
instead of holding the new value. -/
theorem changeTheme_counterexample :
    (changeTheme { activeTheme := "forest", themeStorage := none }).activeTheme = "winter" ∧
    (changeTheme { activeTheme := "forest", themeStorage := none }).themeStorage = none := by
  constructor <;> rfl

/-- C2 (amended): every call of `changeTheme` flips the active theme
between the two known names but leaves the `theme` key of local storage
exactly as it was — persistence of the theme happens only in `setTheme`,
never in the toggle. -/
theorem changeTheme_flips_without_write (st st' : Option String) :
    changeTheme { activeTheme := "forest", themeStorage := st }
      = { activeTheme := "winter", themeStorage := st } ∧
    changeTheme { activeTheme := "winter", themeStorage := st' }
      = { activeTheme := "forest", themeStorage := st' } := by
  constructor <;> rfl

/-- C3: the scenario record `{id:"u1", avatar:"", created:
"2024-03-05T00:00:00Z", themeMode:"", name:"Ann", email:"a@x.com"}` with
token `"tok1"` normalizes, for any avatar-URL oracle and any current
active theme, to the profile with empty avatar, `created = "05-03-2024"`
(zero-padded DD-MM-YYYY from the record's own creation date), `themeMode`
equal to the theme store's current active theme, `id = "u1"`, empty
password fields and an absent `avatarFile`. -/
theorem mapAuthDataToUser_scenario (getURL : UserRecord → String → String)
    (activeTheme : String) :
    (mapAuthDataToUser getURL activeTheme
      { token := "tok1"
        record := { id := "u1", name := "Ann", email := "a@x.com", avatar := "",
                    created := "2024-03-05T00:00:00Z", themeMode := "" } }).1
      = { id := "u1", token := "tok1", name := "Ann", email := "a@x.com", avatar := "",
          created := "05-03-2024", themeMode := activeTheme, password := "",
          passwordConfirm := "", oldPassword := "", avatarFile := none } := by
  rfl

/-- C5: normalization substitutes the theme store's current active theme
exactly when the record's stored theme preference is the empty string,
keeps a non-empty stored preference unchanged, and therefore — since the
active theme is always one of the two known names — never produces a
profile with an empty theme field. -/
theorem mapAuthDataToUser_theme_substitution
    (getURL : UserRecord → String → String) (activeTheme : String) (a : AuthData) :
    (a.record.themeMode = "" →
      (mapAuthDataToUser getURL activeTheme a).1.themeMode = activeTheme) ∧
    (a.record.themeMode ≠ "" →
      (mapAuthDataToUser getURL activeTheme a).1.themeMode = a.record.themeMode) ∧
    ((activeTheme = "forest" ∨ activeTheme = "winter") →
      (mapAuthDataToUser getURL activeTheme a).1.themeMode ≠ "") := by
  by_cases h : a.record.themeMode = ""
  · simp [mapAuthDataToUser, h]
    rintro (rfl | rfl) <;> simp
  · simp [mapAuthDataToUser, h]

/-- C5 (witness): at a concrete record with empty stored preference the
substituted theme is the active one; at a concrete record storing
`"winter"` the preference is kept; with active theme `"forest"` the
result is non-empty. -/
theorem mapAuthDataToUser_theme_substitution_witness :
    (mapAuthDataToUser (fun _ _ => "") "forest"
      { token := "t",
        record := { id := "i", name := "n", email := "e", avatar := "",
                    created := "2024-01-02T00:00:00Z", themeMode := "" } }).1.themeMode
      = "forest" ∧
    (mapAuthDataToUser (fun _ _ => "") "forest"
      { token := "t",
        record := { id := "i", name := "n", email := "e", avatar := "",
                    created := "2024-01-02T00:00:00Z", themeMode := "winter" } }).1.themeMode
      = "winter" ∧
    (mapAuthDataToUser (fun _ _ => "") "forest"
      { token := "t",
        record := { id := "i", name := "n", email := "e", avatar := "",
                    created := "2024-01-02T00:00:00Z", themeMode := "" } }).1.themeMode
      ≠ "" :=
  ⟨(mapAuthDataToUser_theme_substitution _ _ _).1 rfl,
   (mapAuthDataToUser_theme_substitution _ _ _).2.1 (by decide),
   (mapAuthDataToUser_theme_substitution _ _ _).2.2 (Or.inl rfl)⟩

/-- C6: `authRefresh` with an invalid remote session marker, and
`authRefresh` whose remote refresh call fails, both end in the
unauthenticated state: session marker cleared, `pocketbase_auth` storage
key removed, held profile absent.  The operation's type (`AuthState`, not
an `Except`) reflects that the surrounding `catch` swallows every error,
so no error reaches the caller in either case. -/
theorem authRefresh_invalid_or_failure_clears
    (getURL : UserRecord → String → String) (activeTheme : String) (s : AuthState)
    (remote : Except String AuthData) (msg : String) :
    authRefresh getURL activeTheme { s with authValid := false } remote
      = { authValid := false, pbAuthStored := false, user := { userData := none } } ∧
    authRefresh getURL activeTheme s (Except.error msg)
      = { authValid := false, pbAuthStored := false, user := { userData := none } } := by
  constructor
  · rfl
  · cases hv : s.authValid <;> simp [authRefresh, authRefreshBody, clearAll, clearUser, hv]

/-- C7: with a profile held, when the remote update-record call succeeds,
`updateUser` returns success (`true`) and the user store afterwards still
holds exactly the profile it held before — neither the argument nor any
server response is merged into it. -/
theorem updateUser_success_frame {α : Type} (u : UserType) (newData : α) :
    updateUser { userData := some u } newData (Except.ok ())
      = (Except.ok true, { userData := some u }) := by
  rfl

/-- C8: on the two-element set of known theme names, toggling twice
returns the active theme to its original value — `changeTheme` is an
involution there, whatever the stored copy holds. -/
theorem changeTheme_involution (st st' : Option String) :
    (changeTheme (changeTheme { activeTheme := "forest", themeStorage := st })).activeTheme
      = "forest" ∧
    (changeTheme (changeTheme { activeTheme := "winter", themeStorage := st' })).activeTheme
      = "winter" := by
  constructor <;> rfl

/-- C9: `setTheme` with no active profile and no stored `theme` value
resolves the active theme to the default `"forest"` and writes it back to
storage; and in every case whatsoever the resolved active theme is what
the `theme` key holds afterwards. -/
theorem setTheme_default_and_persist (t0 : String) (ud : Option UserType)
    (s : ThemeStoreState) :
    setTheme none { activeTheme := t0, themeStorage := none }
      = { activeTheme := "forest", themeStorage := some "forest" } ∧
    (setTheme ud s).themeStorage = some (setTheme ud s).activeTheme := by
  constructor <;> rfl

/-- C10: `mapAuthDataToUser` mutates its input record in place: when the
record's stored theme is empty, the record `login` hands back to its
caller is the one whose `themeMode` was overwritten with the theme store's
current active theme — and, the active theme being non-empty, that record
differs from the original input. -/
theorem login_returns_mutated_record
    (getURL : UserRecord → String → String) (activeTheme : String) (store : UserStoreState)
    (a : AuthData) (h0 : a.record.themeMode = "") (h1 : activeTheme ≠ "") :
    login getURL activeTheme store (Except.ok a)
      = Except.ok ({ a with record := { a.record with themeMode := activeTheme } },
                   { userData := some (mapAuthDataToUser getURL activeTheme a).1 }) ∧
    { a.record with themeMode := activeTheme } ≠ a.record := by
  constructor
  · simp [login, mapAuthDataToUser, saveUserData, h0]
  · intro heq
    exact h1 (h0 ▸ congrArg UserRecord.themeMode heq)

/-- C10 (witness): a concrete login whose record stored an empty theme
returns the record with its theme overwritten by the active `"forest"`. -/
theorem login_returns_mutated_record_witness :
    login (fun _ _ => "") "forest" { userData := none }
      (Except.ok
        { token := "t",
          record := { id := "i", name := "n", email := "e", avatar := "",
                      created := "2024-01-02T00:00:00Z", themeMode := "" } })
      = Except.ok
        ({ token := "t",
           record := { id := "i", name := "n", email := "e", avatar := "",
                       created := "2024-01-02T00:00:00Z", themeMode := "forest" } },
         { userData := some (mapAuthDataToUser (fun _ _ => "") "forest"
            { token := "t",
              record := { id := "i", name := "n", email := "e", avatar := "",
                          created := "2024-01-02T00:00:00Z", themeMode := "" } }).1 }) ∧
    ({ id := "i", name := "n", email := "e", avatar := "",
       created := "2024-01-02T00:00:00Z", themeMode := "forest" } : UserRecord)
      ≠ { id := "i", name := "n", email := "e", avatar := "",
          created := "2024-01-02T00:00:00Z", themeMode := "" } :=
  login_returns_mutated_record _ _ _ _ rfl (by decide)

/-! ### Reading serialized string values back (for claim C4) -/

/-- Scanning a document that starts right after an opening quote yields
the empty value at an immediate closing quote. -/
theorem scanStr_quote (rest : List Char) : scanStr ('"' :: rest) = some ([], rest) := by
  rw [scanStr.eq_def]
  simp

/-- Scanning consumes a backslash-escaped character as itself. -/
theorem scanStr_escaped (c : Char) (rest cs r : List Char)
    (ih : scanStr rest = some (cs, r)) : scanStr ('\\' :: c :: rest) = some (c :: cs, r) := by
  rw [scanStr.eq_def]
  simp [ih]

/-- Scanning keeps an unescaped ordinary character. -/
theorem scanStr_plain (c : Char) (rest cs r : List Char) (h1 : c ≠ '"') (h2 : c ≠ '\\')
    (ih : scanStr rest = some (cs, r)) : scanStr (c :: rest) = some (c :: cs, r) := by
  rw [scanStr.eq_def]
  simp [h1, h2, ih]

/-- Round trip: an escaped value followed by its closing quote scans back
to exactly that value and the remaining document. -/
theorem scanStr_escList (l rest : List Char) :
    scanStr (escList l ++ '"' :: rest) = some (l, rest) := by
  induction l with
  | nil => exact scanStr_quote rest
  | cons c cs ih =>
    by_cases h1 : c = '"'
    · subst h1
      show scanStr ('\\' :: '"' :: (escList cs ++ '"' :: rest)) = _
      exact scanStr_escaped _ _ _ _ ih
    · by_cases h2 : c = '\\'
      · subst h2
        show scanStr ('\\' :: '\\' :: (escList cs ++ '"' :: rest)) = _
        exact scanStr_escaped _ _ _ _ ih
      · rw [escList, escChar, if_neg h1, if_neg h2, List.singleton_append, List.cons_append]
        exact scanStr_plain c _ _ _ h1 h2 ih

/-- A serialized string value determines the original string and the rest
of the document. -/
theorem quoted_inj {s1 s2 : String} {r1 r2 : List Char}
    (h : quoted s1 r1 = quoted s2 r2) : s1 = s2 ∧ r1 = r2 := by
  have h1 : scanStr (quoted s1 r1) = scanStr (quoted s2 r2) := congrArg scanStr h
  rw [quoted, quoted, scanStr_escList, scanStr_escList] at h1
  simp only [Option.some.injEq, Prod.mk.injEq] at h1
  obtain ⟨hd, hr⟩ := h1
  refine ⟨?_, hr⟩
  cases s1
  cases s2
  exact congrArg String.mk hd

/-- The serialized `avatarFile` segment determines only whether a file was
present: `null` against the empty object. -/
theorem avatarFileJson_tail_inj {o1 o2 : Option String}
    (h : avatarFileJson o1 ++ "\x7d".data = avatarFileJson o2 ++ "\x7d".data) :
    o1.isNone = o2.isNone := by
  cases o1 <;> cases o2
  · rfl
  · have h2 : ("null".data ++ "\x7d".data : List Char) = "\x7b\x7d".data ++ "\x7d".data := h
    exact absurd h2 (by decide)
  · have h2 : ("\x7b\x7d".data ++ "\x7d".data : List Char) = "null".data ++ "\x7d".data := h
    exact absurd h2 (by decide)
  · rfl

/-- Conversely, the `avatarFile` segment depends only on the file's
presence. -/
theorem avatarFileJson_congr {o1 o2 : Option String} (h : o1.isNone = o2.isNone) :
    avatarFileJson o1 = avatarFileJson o2 := by
  cases o1 <;> cases o2 <;> simp_all [avatarFileJson]

/-- Two profiles have the same `JSON.stringify` characters exactly when
they agree on every string field and on the presence of a pending avatar
file. -/
theorem userJsonList_eq_iff (u1 u2 : UserType) :
    userJsonList u1 = userJsonList u2 ↔ serializedEqUser u1 u2 := by
  constructor
  · intro h
    rw [userJsonList, userJsonList] at h
    replace h := List.append_cancel_left h
    obtain ⟨e1, h⟩ := quoted_inj h
    replace h := List.append_cancel_left h
    obtain ⟨e2, h⟩ := quoted_inj h
    replace h := List.append_cancel_left h
    obtain ⟨e3, h⟩ := quoted_inj h
    replace h := List.append_cancel_left h
    obtain ⟨e4, h⟩ := quoted_inj h
    replace h := List.append_cancel_left h
    obtain ⟨e5, h⟩ := quoted_inj h
    replace h := List.append_cancel_left h
    obtain ⟨e6, h⟩ := quoted_inj h
    replace h := List.append_cancel_left h
    obtain ⟨e7, h⟩ := quoted_inj h
    replace h := List.append_cancel_left h
    obtain ⟨e8, h⟩ := quoted_inj h
    replace h := List.append_cancel_left h
    obtain ⟨e9, h⟩ := quoted_inj h
    replace h := List.append_cancel_left h
    obtain ⟨e10, h⟩ := quoted_inj h
    replace h := List.append_cancel_left h
    exact ⟨e1, e2, e3, e4, e5, e6, e7, e8, e9, e10, avatarFileJson_tail_inj h⟩
  · rintro ⟨e1, e2, e3, e4, e5, e6, e7, e8, e9, e10, e11⟩
    rw [userJsonList, userJsonList, e1, e2, e3, e4, e5, e6, e7, e8, e9, e10,
      avatarFileJson_congr e11]

set_option maxRecDepth 8192 in
/-- C4 (counterexample): two profiles that differ in a transient
write-only field — the pending avatar file, `a.png` against `b.png` —
serialize identically (a `File` has no own enumerable properties, so
`JSON.stringify` renders both as the empty object), and `userDataHasEdited`
returns `false` on them although they differ. -/
theorem userDataHasEdited_counterexample :
    userDataHasEdited
      (UserStoreState.mk (some (UserType.mk "u1" "t" "Ann" "a@x.com" "" "05-03-2024"
        "forest" "" "" "" (some "a.png"))))
      (UserType.mk "u1" "t" "Ann" "a@x.com" "" "05-03-2024"
        "forest" "" "" "" (some "b.png"))
      = false ∧
    UserType.mk "u1" "t" "Ann" "a@x.com" "" "05-03-2024" "forest" "" "" "" (some "b.png")
      ≠ UserType.mk "u1" "t" "Ann" "a@x.com" "" "05-03-2024" "forest" "" "" "" (some "a.png") := by
  constructor
  · rfl
  · decide

/-- C4 (amended): `userDataHasEdited` compares `JSON.stringify` texts, so
it returns `false` exactly when the candidate agrees with the held profile
on every string-valued field — the transient password fields included —
and on the *presence* of a pending avatar file; the file's contents
serialize opaquely and are not compared.  In particular it returns `false`
when called with the exact currently-held profile. -/
theorem userDataHasEdited_iff_serializedEq (held data : UserType) :
    (userDataHasEdited { userData := some held } data = false ↔ serializedEqUser data held) ∧
    userDataHasEdited { userData := some held } held = false := by
  have key : ∀ u1 u2 : UserType,
      userDataHasEdited { userData := some u2 } u1 = false ↔ serializedEqUser u1 u2 := by
    intro u1 u2
    simp only [userDataHasEdited, stringifyOpt, stringifyUser]
    rw [show ∀ b : Bool, ((!b) = false ↔ b = true) from by decide, beq_iff_eq]
    constructor
    · intro h
      exact (userJsonList_eq_iff u1 u2).mp (congrArg String.data h)
    · intro h
      exact congrArg String.mk ((userJsonList_eq_iff u1 u2).mpr h)
  refine ⟨key data held, (key held held).mpr ?_⟩
  exact ⟨rfl, rfl, rfl, rfl, rfl, rfl, rfl, rfl, rfl, rfl, rfl⟩
